import Mathlib

/-!
Verification of the conflict-detection and state-merge engine of the LifeOS
personal-data assistant (App.tsx).  The TypeScript source is shallowly embedded:
React `useState` cells become fields of an explicit `AppState` record, each
event handler becomes a pure function from `AppState` to `AppState`, the
impure identifier generator becomes an explicit supply `g : Nat → String`
threaded by call position, and the wall-clock timestamp is a parameter.
JavaScript strings are modelled by Lean `String`; `undefined`/`null` by
`Option`; JS truthiness of strings (empty string is falsy) is modelled
explicitly by the `jsTruthy`/`jsOrStr`/`jsOrOpt` helpers.
-/

namespace LifeOS

/-- JS truthiness of an optional string: `null`/`undefined` and the empty
string are falsy, every other string is truthy. -/
def jsTruthy : Option String → Bool
  | none => false
  | some s => s ≠ ""

/-- JS `a || b` on strings: yields `b` exactly when `a` is the empty string. -/
def jsOrStr (a b : String) : String :=
  if a = "" then b else a

/-- JS `a || b` where `a` is a nullable string and `b` a nullable fallback. -/
def jsOrOpt (a b : Option String) : Option String :=
  if jsTruthy a then a else b

/-- JS `s || null`: a non-empty string stays, the empty string becomes `null`. -/
def jsStrOrNull (s : String) : Option String :=
  if s = "" then none else some s

/-- JS `group || '기타'` where `group` is an optional string: both a missing
group and an empty-string group default to the sentinel "기타". -/
def defaultGroup (g : Option String) : String :=
  jsOrStr (g.getD "") "기타"

/-- `normalizePhone` (App.tsx line 119): `phone ? phone.replace(/\D/g, '') : ''` —
strip every non-digit character; a missing phone normalizes to the empty string. -/
def normalizePhone : Option String → String
  | none => ""
  | some p => String.mk (p.toList.filter Char.isDigit)

/-- The trimmed-lowercased key `s.trim().toLowerCase()` used by the schedule
and expense duplicate checks: drop leading and trailing whitespace, then
lowercase character by character.  (Implemented over the character list
rather than with `String.trim`/`String.toLower`, whose position-based
recursion the kernel cannot evaluate; the mapping is the same.) -/
def normKey (s : String) : String :=
  String.mk
    ((((s.toList.dropWhile Char.isWhitespace).reverse.dropWhile
        Char.isWhitespace).reverse).map Char.toLower)

/-! ### Data model (types.ts as used by App.tsx) -/

/-- Transaction direction of an `Expense` record. -/
inductive ExpenseType where
  | expense
  | income
  deriving Repr, DecidableEq

/-- A committed contact record (identifier already assigned). -/
structure Contact where
  id : String
  name : String
  phone : Option String
  email : Option String
  group : String
  deriving Repr, DecidableEq

/-- A committed schedule record.  `date` is an ISO `YYYY-MM-DD` string and
`time` an optional `HH:MM` string. -/
structure ScheduleItem where
  id : String
  title : String
  date : String
  time : Option String
  location : Option String
  deriving Repr, DecidableEq

/-- A committed expense/income record.  `amount` is an integer number of won. -/
structure Expense where
  id : String
  date : String
  item : String
  amount : Int
  type : ExpenseType
  category : Option String
  imageUrl : Option String
  deriving Repr, DecidableEq

/-- A committed diary record. -/
structure DiaryEntry where
  id : String
  date : String
  entry : String
  group : String
  deriving Repr, DecidableEq

/-- An extracted contact as returned by the Extraction Gateway: structurally
without an identifier field. -/
structure NewContact where
  name : String
  phone : Option String
  email : Option String
  group : Option String
  deriving Repr, DecidableEq

/-- An extracted schedule item, without an identifier. -/
structure NewScheduleItem where
  title : String
  date : String
  time : Option String
  location : Option String
  deriving Repr, DecidableEq

/-- An extracted expense, without an identifier and without a receipt image. -/
structure NewExpense where
  date : String
  item : String
  amount : Int
  type : ExpenseType
  category : Option String
  deriving Repr, DecidableEq

/-- An extracted diary entry, without an identifier. -/
structure NewDiaryEntry where
  date : String
  entry : String
  group : Option String
  deriving Repr, DecidableEq

/-- `ProcessedData`: the category-partitioned extraction result, pre-identifier. -/
structure ProcessedData where
  contacts : List NewContact
  schedule : List NewScheduleItem
  expenses : List NewExpense
  diary : List NewDiaryEntry
  deriving Repr, DecidableEq

/-- `CategorizedData`: the extraction result after identifier assignment. -/
structure CategorizedData where
  contacts : List Contact
  schedule : List ScheduleItem
  expenses : List Expense
  diary : List DiaryEntry
  deriving Repr, DecidableEq

/-- The `input` component of a `HistoryItem`: raw text plus optional image
name and data-URL reference. -/
structure InputLog where
  text : String
  imageName : Option String
  imageUrl : Option String
  deriving Repr, DecidableEq

/-- `HistoryItem`: the immutable audit record of one processing round. -/
structure HistoryItem where
  id : String
  timestamp : String
  input : InputLog
  output : CategorizedData
  deriving Repr, DecidableEq

/-- Chat message author role. -/
inductive Role where
  | user
  | model
  deriving Repr, DecidableEq

/-- One message of a chat transcript. -/
structure ChatMessage where
  id : String
  role : Role
  text : String
  imageUrl : Option String
  clarificationOptions : Option (List String)
  deriving Repr, DecidableEq

/-- One chat session: an ordered sequence of messages. -/
structure ChatSession where
  id : String
  title : String
  messages : List ChatMessage
  deriving Repr, DecidableEq

/-- The per-category lists of colliding new records inside a `conflictData`
value (the spec's ConflictSession). -/
structure ConflictLists where
  contacts : List Contact
  schedule : List ScheduleItem
  expenses : List Expense
  deriving Repr, DecidableEq

/-- The per-category identifiers of the existing records that were collided
with. -/
structure ConflictIds where
  contacts : List String
  schedule : List String
  expenses : List String
  deriving Repr, DecidableEq

/-- `conflictData` (App.tsx lines 62-75): the spec's ConflictSession — the
colliding new records, the colliding existing identifiers, the full
categorized result, and the not-yet-committed HistoryItem. -/
structure ConflictData where
  conflicts : ConflictLists
  categorizedResult : CategorizedData
  conflictingOriginalIds : ConflictIds
  newHistoryItem : HistoryItem
  deriving Repr, DecidableEq

/-- The uploaded image of one input: file name plus the data URL the
`FileReader` produces for it. -/
structure InputImage where
  name : String
  dataUrl : String
  deriving Repr, DecidableEq

/-- The `useState` cells of the App component that the merge engine reads and
writes.  Transient UI-only cells (`isLoading`, modal selections, month
pickers, sidebar state) are omitted; `error` is kept because the error path
is specified. -/
structure AppState where
  hasInteracted : Bool
  history : List HistoryItem
  contacts : List Contact
  schedule : List ScheduleItem
  expenses : List Expense
  diary : List DiaryEntry
  chatSessions : List ChatSession
  activeChatSessionId : String
  activeView : String
  error : Option String
  pendingClarificationInput : Option InputLog
  conflictData : Option ConflictData
  deriving Repr, DecidableEq

/-! ### Duplicate Detector (App.tsx `addDataToState`, lines 106-154) -/

/-- The contact pass of the duplication check (lines 121-130): for each new
contact, if its normalized phone is non-empty and some existing contact has
the same normalized phone, push the new contact and the first matching
existing contact's identifier.  Returns (colliding new contacts, colliding
original identifiers), in input order. -/
def contactConflicts (existing : List Contact) : List Contact → List Contact × List String
  | [] => ([], [])
  | n :: rest =>
    let tail := contactConflicts existing rest
    let p := normalizePhone n.phone
    if p ≠ "" then
      match existing.find? (fun c => normalizePhone c.phone == p) with
      | some ex => (n :: tail.1, ex.id :: tail.2)
      | none => tail
    else tail

/-- The schedule pass of the duplication check (lines 132-141): collision when
an existing item has a trim-and-lowercase equal title and an identical date. -/
def scheduleConflicts (existing : List ScheduleItem) :
    List ScheduleItem → List ScheduleItem × List String
  | [] => ([], [])
  | n :: rest =>
    let tail := scheduleConflicts existing rest
    match existing.find? (fun s => normKey s.title == normKey n.title && s.date == n.date) with
    | some ex => (n :: tail.1, ex.id :: tail.2)
    | none => tail

/-- The expense pass of the duplication check (lines 143-154): collision when
an existing record matches on trimmed-lowercased item label, date, amount and
type simultaneously. -/
def expenseConflicts (existing : List Expense) : List Expense → List Expense × List String
  | [] => ([], [])
  | n :: rest =>
    let tail := expenseConflicts existing rest
    match existing.find? (fun e =>
        normKey e.item == normKey n.item && e.date == n.date &&
        e.amount == n.amount && e.type == n.type) with
    | some ex => (n :: tail.1, ex.id :: tail.2)
    | none => tail

/-! ### Merge Resolver -/

/-- The schedule sort comparator of lines 178 and 431:
`new Date(a.date).getTime() - new Date(b.date).getTime() || (a.time||'').localeCompare(b.time||'')`.
Dates are ISO `YYYY-MM-DD` strings, whose millisecond timestamps are ordered
exactly as the strings are ordered lexicographically, and `localeCompare` on
`HH:MM` strings is the lexicographic comparison; a missing time participates
as the empty string. -/
def scheduleLE (a b : ScheduleItem) : Bool :=
  decide (a.date < b.date) ||
    (a.date == b.date && decide (a.time.getD "" ≤ b.time.getD ""))

/-- `addDataToState` (lines 106-181): run the Duplicate Detector; on any
collision capture a ConflictSession and stop; otherwise commit — prepend the
new HistoryItem, append contacts/expenses/diary, and insert-and-resort the
schedule.  `histId` is the identifier minted for the HistoryItem and
`timestamp` the current clock reading. -/
def addDataToState (st : AppState) (categorizedResult : CategorizedData)
    (input : InputLog) (histId timestamp : String) : AppState :=
  let cc := contactConflicts st.contacts categorizedResult.contacts
  let sc := scheduleConflicts st.schedule categorizedResult.schedule
  let ec := expenseConflicts st.expenses categorizedResult.expenses
  let newHistoryItem : HistoryItem :=
    { id := histId, timestamp := timestamp, input := input, output := categorizedResult }
  if 0 < cc.1.length ∨ 0 < sc.1.length ∨ 0 < ec.1.length then
    { st with conflictData := some (
        { conflicts := { contacts := cc.1, schedule := sc.1, expenses := ec.1 }
          categorizedResult := categorizedResult
          conflictingOriginalIds := { contacts := cc.2, schedule := sc.2, expenses := ec.2 }
          newHistoryItem := newHistoryItem } : ConflictData) }
  else
    { st with
      history := newHistoryItem :: st.history
      contacts := st.contacts ++ categorizedResult.contacts
      schedule := ((st.schedule ++ categorizedResult.schedule).mergeSort scheduleLE)
      expenses := st.expenses ++ categorizedResult.expenses
      diary := st.diary ++ categorizedResult.diary }

/-- `handleConflictConfirm` (lines 372-394): the Replace resolution.  For
contacts/schedule/expenses, drop every existing record whose identifier was
recorded as colliding and append all new records; for diary, drop existing
entries sharing an identifier with a new entry and append the new entries;
prepend the pending HistoryItem; clear the ConflictSession. -/
def handleConflictConfirm (st : AppState) : AppState :=
  match st.conflictData with
  | none => st
  | some cd =>
    { st with
      history := cd.newHistoryItem :: st.history
      contacts :=
        st.contacts.filter (fun c => !(cd.conflictingOriginalIds.contacts.contains c.id))
          ++ cd.categorizedResult.contacts
      schedule :=
        st.schedule.filter (fun s => !(cd.conflictingOriginalIds.schedule.contains s.id))
          ++ cd.categorizedResult.schedule
      expenses :=
        st.expenses.filter (fun e => !(cd.conflictingOriginalIds.expenses.contains e.id))
          ++ cd.categorizedResult.expenses
      diary :=
        st.diary.filter (fun d => !(cd.categorizedResult.diary.any (fun nd => nd.id == d.id)))
          ++ cd.categorizedResult.diary
      conflictData := none }

/-- `handleConflictCancel` (lines 396-398): the Cancel resolution — only the
ConflictSession slot is cleared. -/
def handleConflictCancel (st : AppState) : AppState :=
  { st with conflictData := none }

/-- `handleConflictIgnoreAndAdd` (lines 400-412): the Ignore-and-append
resolution — prepend the pending HistoryItem, append every new record without
removing anything, clear the ConflictSession. -/
def handleConflictIgnoreAndAdd (st : AppState) : AppState :=
  match st.conflictData with
  | none => st
  | some cd =>
    { st with
      history := cd.newHistoryItem :: st.history
      contacts := st.contacts ++ cd.categorizedResult.contacts
      schedule := st.schedule ++ cd.categorizedResult.schedule
      expenses := st.expenses ++ cd.categorizedResult.expenses
      diary := st.diary ++ cd.categorizedResult.diary
      conflictData := none }

/-! ### Identifier assignment (`addIdsToData`, lines 97-104) -/

/-- Map a list while drawing one fresh identifier per element from the supply
`g`, starting at call position `k`.  This makes the call order of the impure
`generateId()` inside `addIdsToData` explicit. -/
def mapWithIds (g : Nat → String) (mk : String → α → β) : Nat → List α → List β
  | _, [] => []
  | k, a :: rest => mk (g k) a :: mapWithIds g mk (k + 1) rest

/-- `addIdsToData` (lines 97-104): attach a freshly generated identifier to
every extracted record and default missing/empty contact and diary groups to
"기타".  Identifiers are drawn category by category in source evaluation
order: contacts, then schedule, then expenses, then diary. -/
def addIdsToData (g : Nat → String) (k : Nat) (data : ProcessedData) : CategorizedData :=
  { contacts := mapWithIds g (fun i c =>
      { id := i, name := c.name, phone := c.phone, email := c.email,
        group := defaultGroup c.group }) k data.contacts
    schedule := mapWithIds g (fun i s =>
      { id := i, title := s.title, date := s.date, time := s.time,
        location := s.location }) (k + data.contacts.length) data.schedule
    expenses := mapWithIds g (fun i e =>
      { id := i, date := e.date, item := e.item, amount := e.amount,
        type := e.type, category := e.category, imageUrl := none })
      (k + data.contacts.length + data.schedule.length) data.expenses
    diary := mapWithIds g (fun i d =>
      { id := i, date := d.date, entry := d.entry, group := defaultGroup d.group })
      (k + data.contacts.length + data.schedule.length + data.expenses.length) data.diary }

/-- Total number of records of an extraction result. -/
def countOf (d : ProcessedData) : Nat :=
  d.contacts.length + d.schedule.length + d.expenses.length + d.diary.length

/-- All identifiers carried by a categorized result, in assignment order. -/
def idsOf (cd : CategorizedData) : List String :=
  cd.contacts.map (fun c => c.id) ++ cd.schedule.map (fun s => s.id) ++
    cd.expenses.map (fun e => e.id) ++ cd.diary.map (fun d => d.id)

/-! ### Chat round (`handleSendMessage`, lines 218-356) -/

/-- The structured Extraction Gateway response consumed by `handleSendMessage`
(`processChat` always supplies all four fields, defaulting missing ones). -/
structure GatewayResult where
  answer : String
  clarificationNeeded : Bool
  clarificationOptions : List String
  dataExtraction : ProcessedData
  deriving Repr, DecidableEq

/-- Outcome of the awaited Extraction Gateway call: a structured result, or a
thrown error carrying its message. -/
inductive GatewayOutcome where
  | ok (r : GatewayResult)
  | failure (msg : String)
  deriving Repr, DecidableEq

/-- `userInputLog` (lines 242-246): the original input recorded for history.
JS `image?.name || null` turns both a missing image and an empty file name
into `null`. -/
def mkInputLog (text : String) (image : Option InputImage) : InputLog :=
  { text := text
    imageName := image.bind (fun im => jsStrOrNull im.name)
    imageUrl := image.map (fun im => im.dataUrl) }

/-- New-session title (line 255): `text.substring(0, 30) || image?.name || "새 대화"`. -/
def sessionTitle (text : String) (image : Option InputImage) : String :=
  jsOrStr (text.take 30) (jsOrStr ((image.map (fun im => im.name)).getD "") "새 대화")

/-- `setChatSessions(prev => prev.map(s => s.id === sid ? append : s))`: append
one message to the session with the given identifier, leaving others alone. -/
def appendToSession (sessions : List ChatSession) (sid : String) (m : ChatMessage) :
    List ChatSession :=
  sessions.map (fun s =>
    if s.id = sid then { s with messages := s.messages ++ [m] } else s)

/-- `hasExtractedData` (lines 313-317). -/
def hasExtractedData (d : ProcessedData) : Bool :=
  0 < d.contacts.length || 0 < d.schedule.length ||
    0 < d.expenses.length || 0 < d.diary.length

/-- The normal input path assumes the active chat session is the 'new'
sentinel or actually present (line 262 dereferences the result of `find`
without a check). -/
def validSession (st : AppState) : Prop :=
  st.activeChatSessionId = "new" ∨
    ∃ s ∈ st.chatSessions, s.id = st.activeChatSessionId

/-- The data-committing tail of `handleSendMessage` (lines 319-336): assign
identifiers, resolve the receipt image reference (`pendingClarificationInput?.imageUrl || imageUrl`)
and stamp it onto the extracted expenses when present, attribute the history
input to the stored PendingClarification when one exists
(`pendingClarificationInput || userInputLog`), run `addDataToState`, and
clear the PendingClarification. -/
def commitExtractedRound (st2 : AppState) (pending : Option InputLog)
    (userInputLog : InputLog) (imageUrl : Option String) (ex : ProcessedData)
    (g : Nat → String) (k2 : Nat) (timestamp : String) : AppState :=
  let categorizedResult := addIdsToData g k2 ex
  let finalImageUrl := jsOrOpt (pending.bind (fun p => p.imageUrl)) imageUrl
  let categorizedResult2 :=
    if jsTruthy finalImageUrl && 0 < categorizedResult.expenses.length then
      { categorizedResult with expenses :=
          categorizedResult.expenses.map (fun e => { e with imageUrl := finalImageUrl }) }
    else categorizedResult
  let inputForHistory := pending.getD userInputLog
  let st3 := addDataToState st2 categorizedResult2 inputForHistory
    (g (k2 + countOf ex)) timestamp
  { st3 with pendingClarificationInput := none }

/-- `handleSendMessage` (lines 218-356), one complete round.  `g` supplies the
values of the successive `generateId()` calls by call position (0 = the user
message, 1 = a fresh session identifier when one is created, then the model
message, then the extracted-record identifiers, then the HistoryItem);
`timestamp` is the clock reading used for the HistoryItem; `outcome` is what
the awaited `processChat` call produced. -/
def handleSendMessage (st : AppState) (text : String) (image : Option InputImage)
    (outcome : GatewayOutcome) (g : Nat → String) (timestamp : String) : AppState :=
  let imageUrl : Option String := image.map (fun im => im.dataUrl)
  let userMessage : ChatMessage :=
    { id := g 0, role := Role.user, text := text, imageUrl := imageUrl,
      clarificationOptions := none }
  let userInputLog : InputLog := mkInputLog text image
  let setup : List ChatSession × String × Nat :=
    if st.activeChatSessionId = "new" then
      (({ id := g 1, title := sessionTitle text image, messages := [userMessage] }
          : ChatSession) :: st.chatSessions, g 1, 2)
    else
      (st.chatSessions.map (fun s =>
          if s.id = st.activeChatSessionId then
            { s with messages := s.messages ++ [userMessage] }
          else s),
        st.activeChatSessionId, 1)
  let currentSessionId := setup.2.1
  let k := setup.2.2
  let st1 : AppState :=
    { st with hasInteracted := true, error := none,
              chatSessions := setup.1, activeChatSessionId := currentSessionId }
  match outcome with
  | GatewayOutcome.failure msg =>
    let errorMessageItem : ChatMessage :=
      { id := g k, role := Role.model, text := "오류가 발생했습니다: " ++ msg,
        imageUrl := none, clarificationOptions := none }
    { st1 with
      error := some msg
      chatSessions := appendToSession st1.chatSessions currentSessionId errorMessageItem
      pendingClarificationInput := none }
  | GatewayOutcome.ok r =>
    if r.clarificationNeeded then
      let modelMessage : ChatMessage :=
        { id := g k, role := Role.model, text := r.answer, imageUrl := none,
          clarificationOptions := some r.clarificationOptions }
      { st1 with
        chatSessions := appendToSession st1.chatSessions currentSessionId modelMessage
        pendingClarificationInput :=
          if st.pendingClarificationInput = none then some userInputLog
          else st.pendingClarificationInput }
    else
      let hasAnswer := r.answer ≠ ""
      let sessions2 :=
        if hasAnswer then
          appendToSession st1.chatSessions currentSessionId
            { id := g k, role := Role.model, text := r.answer, imageUrl := none,
              clarificationOptions := none }
        else st1.chatSessions
      let k2 := if hasAnswer then k + 1 else k
      let st2 := { st1 with chatSessions := sessions2 }
      if hasExtractedData r.dataExtraction then
        commitExtractedRound st2 st.pendingClarificationInput userInputLog imageUrl
          r.dataExtraction g k2 timestamp
      else st2

/-- `handleNewChat` (lines 358-363). -/
def handleNewChat (st : AppState) : AppState :=
  { st with hasInteracted := false, activeView := "ALL",
            activeChatSessionId := "new", pendingClarificationInput := none }

/-- `handleSelectChat` (lines 365-369). -/
def handleSelectChat (st : AppState) (sessionId : String) : AppState :=
  { st with activeView := "ALL", activeChatSessionId := sessionId,
            pendingClarificationInput := none }

/-! ### Concrete sample data used to instantiate the theorems -/

/-- A deterministic identifier supply used for concrete instantiations. -/
def gSample : Nat → String := fun n => "id" ++ toString n

/-- An injective identifier supply (the generated string's length recovers the
call position). -/
def gRep : Nat → String := fun n => String.mk (List.replicate n 'a')

/-- Sample committed contact (spec §8, Scenario 1). -/
def sampleKim : Contact :=
  { id := "k0", name := "Kim", phone := some "010-1234-5678", email := none, group := "기타" }

/-- Sample new contact colliding with `sampleKim` by normalized phone. -/
def sampleKimJ : Contact :=
  { id := "k1", name := "Kim J.", phone := some "01012345678", email := none, group := "기타" }

/-- Sample committed expense. -/
def sampleExpenseOld : Expense :=
  { id := "e0", date := "2024-05-01", item := "Coffee", amount := 4500,
    type := ExpenseType.expense, category := none, imageUrl := none }

/-- Sample new expense matching `sampleExpenseOld` on all four identity fields. -/
def sampleExpenseNew : Expense :=
  { id := "e1", date := "2024-05-01", item := " coffee ", amount := 4500,
    type := ExpenseType.expense, category := none, imageUrl := none }

/-- Sample categorized result carrying one record per category. -/
def sampleResult : CategorizedData :=
  { contacts := [sampleKimJ]
    schedule := [{ id := "s1", title := "Team sync", date := "2024-05-01",
                   time := none, location := none }]
    expenses := [sampleExpenseNew]
    diary := [{ id := "d1", date := "2024-05-01", entry := "memo", group := "기타" }] }

/-- Sample pending HistoryItem for a conflict session. -/
def sampleHistoryItem : HistoryItem :=
  { id := "h1", timestamp := "2024-05-01T00:00:00.000Z",
    input := { text := "receipt", imageName := none, imageUrl := none },
    output := sampleResult }

/-- Sample ConflictSession: `sampleKimJ` collided with `sampleKim`. -/
def sampleConflict : ConflictData :=
  { conflicts := { contacts := [sampleKimJ], schedule := [], expenses := [] }
    categorizedResult := sampleResult
    conflictingOriginalIds := { contacts := ["k0"], schedule := [], expenses := [] }
    newHistoryItem := sampleHistoryItem }

/-- Sample quiescent state with one committed contact and no pending slots. -/
def sampleStateIdle : AppState :=
  { hasInteracted := true, history := [], contacts := [sampleKim], schedule := [],
    expenses := [], diary := [], chatSessions := [], activeChatSessionId := "new",
    activeView := "ALL", error := none, pendingClarificationInput := none,
    conflictData := none }

/-- Sample state suspended in `AwaitingResolution` on `sampleConflict`. -/
def sampleStateConflict : AppState :=
  { sampleStateIdle with conflictData := some sampleConflict }

/-- Sample original input stored while the model asks a clarifying question. -/
def samplePending : InputLog :=
  { text := "finish chapter 1", imageName := some "receipt.png",
    imageUrl := some "data:image" }

/-- Sample state awaiting the user's disambiguating reply. -/
def sampleStatePending : AppState :=
  { sampleStateIdle with
    contacts := []
    pendingClarificationInput := some samplePending }

/-- Sample data-bearing gateway result (one schedule item). -/
def sampleDataResult : GatewayResult :=
  { answer := "저장했습니다.", clarificationNeeded := false, clarificationOptions := []
    dataExtraction :=
      { contacts := []
        schedule :=
          [{ title := "finish chapter 1", date := "2024-05-02", time := none, location := none }]
        expenses :=
          [{ date := "2024-05-02", item := "book", amount := 100,
             type := ExpenseType.expense, category := none }]
        diary := [] } }

/-- Sample empty, non-clarifying gateway result. -/
def sampleEmptyResult : GatewayResult :=
  { answer := "네.", clarificationNeeded := false, clarificationOptions := []
    dataExtraction := { contacts := [], schedule := [], expenses := [], diary := [] } }

/-- Sample clarifying gateway result. -/
def sampleClarifyResult : GatewayResult :=
  { answer := "이 내용을 어디에 저장할까요?", clarificationNeeded := true,
    clarificationOptions := ["To-do list", "메모", "일정"]
    dataExtraction := { contacts := [], schedule := [], expenses := [], diary := [] } }

/-- Sample extraction payload for the identifier-assignment theorem. -/
def sampleProcessed : ProcessedData :=
  { contacts := [{ name := "A", phone := some "010", email := none, group := none }]
    schedule := [{ title := "t", date := "2024-01-01", time := none, location := none }]
    expenses := []
    diary := [{ date := "2024-01-01", entry := "x", group := some "" }] }

/-! ### Helper lemmas -/

theorem not_contains_eq_decide (l : List String) (a : String) :
    (!(l.contains a)) = decide (a ∉ l) := by
  by_cases h : a ∈ l <;> simp [h]

/-! ### Claim theorems -/

/-- C4: the Cancel resolution leaves the four collections and the history log
exactly unchanged, performs no commit and creates no HistoryItem, and clears
the ConflictSession (returning the Merge Resolver to Idle). -/
theorem cancel_resolution_frame (st : AppState) :
    (handleConflictCancel st).contacts = st.contacts ∧
    (handleConflictCancel st).schedule = st.schedule ∧
    (handleConflictCancel st).expenses = st.expenses ∧
    (handleConflictCancel st).diary = st.diary ∧
    (handleConflictCancel st).history = st.history ∧
    (handleConflictCancel st).conflictData = none := by
  simp [handleConflictCancel]

/-- C5: the Ignore-and-append resolution appends every new record of the
categorized result to its category's collection without removing any existing
record — each collection grows by exactly the count of new records in that
category and every pre-existing record is still present — and prepends the
pending HistoryItem and clears the ConflictSession. -/
theorem ignore_and_append_semantics (st : AppState) (cd : ConflictData)
    (h : st.conflictData = some cd) :
    (handleConflictIgnoreAndAdd st).contacts = st.contacts ++ cd.categorizedResult.contacts ∧
    (handleConflictIgnoreAndAdd st).schedule = st.schedule ++ cd.categorizedResult.schedule ∧
    (handleConflictIgnoreAndAdd st).expenses = st.expenses ++ cd.categorizedResult.expenses ∧
    (handleConflictIgnoreAndAdd st).diary = st.diary ++ cd.categorizedResult.diary ∧
    (handleConflictIgnoreAndAdd st).contacts.length
      = st.contacts.length + cd.categorizedResult.contacts.length ∧
    (handleConflictIgnoreAndAdd st).schedule.length
      = st.schedule.length + cd.categorizedResult.schedule.length ∧
    (handleConflictIgnoreAndAdd st).expenses.length
      = st.expenses.length + cd.categorizedResult.expenses.length ∧
    (handleConflictIgnoreAndAdd st).diary.length
      = st.diary.length + cd.categorizedResult.diary.length ∧
    (∀ x ∈ st.contacts, x ∈ (handleConflictIgnoreAndAdd st).contacts) ∧
    (∀ x ∈ st.schedule, x ∈ (handleConflictIgnoreAndAdd st).schedule) ∧
    (∀ x ∈ st.expenses, x ∈ (handleConflictIgnoreAndAdd st).expenses) ∧
    (∀ x ∈ st.diary, x ∈ (handleConflictIgnoreAndAdd st).diary) ∧
    (handleConflictIgnoreAndAdd st).history = cd.newHistoryItem :: st.history ∧
    (handleConflictIgnoreAndAdd st).conflictData = none := by
  unfold handleConflictIgnoreAndAdd
  rw [h]
  refine ⟨rfl, rfl, rfl, rfl, ?_, ?_, ?_, ?_, ?_, ?_, ?_, ?_, rfl, rfl⟩ <;>
    simp [List.mem_append]
  all_goals intro x hx
  all_goals exact Or.inl hx

/-- Closed instance of `ignore_and_append_semantics` on `sampleStateConflict`. -/
theorem ignore_and_append_semantics_witness :
    (handleConflictIgnoreAndAdd sampleStateConflict).contacts
      = sampleStateConflict.contacts ++ sampleConflict.categorizedResult.contacts ∧
    (handleConflictIgnoreAndAdd sampleStateConflict).history
      = sampleConflict.newHistoryItem :: sampleStateConflict.history ∧
    (handleConflictIgnoreAndAdd sampleStateConflict).conflictData = none := by
  have h := ignore_and_append_semantics sampleStateConflict sampleConflict rfl
  exact ⟨h.1, h.2.2.2.2.2.2.2.2.2.2.2.2.1, h.2.2.2.2.2.2.2.2.2.2.2.2.2⟩

/-- C1: the Replace resolution yields, for contacts/schedule/expenses, the
existing records minus those whose identifier was recorded as colliding
followed by all new records of that category, appends all new diary entries
(their commit-time identifiers are fresh, so the diary self-deduplication
filter removes nothing), prepends the pending HistoryItem, and clears the
ConflictSession. -/
theorem replace_resolution_semantics (st : AppState) (cd : ConflictData)
    (h : st.conflictData = some cd)
    (hfresh : ∀ d ∈ st.diary, ∀ nd ∈ cd.categorizedResult.diary, nd.id ≠ d.id) :
    (handleConflictConfirm st).contacts =
      st.contacts.filter (fun c => decide (c.id ∉ cd.conflictingOriginalIds.contacts))
        ++ cd.categorizedResult.contacts ∧
    (handleConflictConfirm st).schedule =
      st.schedule.filter (fun s => decide (s.id ∉ cd.conflictingOriginalIds.schedule))
        ++ cd.categorizedResult.schedule ∧
    (handleConflictConfirm st).expenses =
      st.expenses.filter (fun e => decide (e.id ∉ cd.conflictingOriginalIds.expenses))
        ++ cd.categorizedResult.expenses ∧
    (handleConflictConfirm st).diary = st.diary ++ cd.categorizedResult.diary ∧
    (handleConflictConfirm st).history = cd.newHistoryItem :: st.history ∧
    (handleConflictConfirm st).conflictData = none := by
  unfold handleConflictConfirm
  rw [h]
  refine ⟨?_, ?_, ?_, ?_, rfl, rfl⟩
  · simp only
    rw [List.filter_congr (fun c _ => not_contains_eq_decide _ _)]
  · simp only
    rw [List.filter_congr (fun s _ => not_contains_eq_decide _ _)]
  · simp only
    rw [List.filter_congr (fun e _ => not_contains_eq_decide _ _)]
  · simp only
    have : st.diary.filter
        (fun d => !(cd.categorizedResult.diary.any (fun nd => nd.id == d.id))) = st.diary := by
      rw [List.filter_eq_self]
      intro d hd
      simp only [Bool.not_eq_true', List.any_eq_false]
      intro nd hnd
      simpa using hfresh d hd nd hnd
    rw [this]

/-- Closed instance of `replace_resolution_semantics`: Scenario 1 of the spec —
after Replace, the surviving contacts are exactly the new "Kim J." record. -/
theorem replace_resolution_semantics_witness :
    (handleConflictConfirm sampleStateConflict).contacts = [sampleKimJ] ∧
    (handleConflictConfirm sampleStateConflict).conflictData = none := by
  have h := replace_resolution_semantics sampleStateConflict sampleConflict rfl
    (by intro d hd nd hnd; simp [sampleStateConflict, sampleStateIdle] at hd)
  refine ⟨?_, h.2.2.2.2.2⟩
  rw [h.1]
  decide

/-- One step of the contact pass, written out. -/
theorem contactConflicts_singleton (existing : List Contact) (n : Contact) :
    contactConflicts existing [n] =
      (if normalizePhone n.phone ≠ "" then
        match existing.find? (fun c => normalizePhone c.phone == normalizePhone n.phone) with
        | some ex => ([n], [ex.id])
        | none => ([], [])
      else ([], [])) := rfl

/-- One step of the contact pass on a cons cell, written out. -/
theorem contactConflicts_cons (existing : List Contact) (n : Contact) (rest : List Contact) :
    contactConflicts existing (n :: rest) =
      (if normalizePhone n.phone ≠ "" then
        match existing.find? (fun c => normalizePhone c.phone == normalizePhone n.phone) with
        | some ex => (n :: (contactConflicts existing rest).1,
                      ex.id :: (contactConflicts existing rest).2)
        | none => contactConflicts existing rest
      else contactConflicts existing rest) := rfl

/-- The contact pass records at most one collision per new contact: the two
output lists stay in lockstep and never exceed the input length. -/
theorem contactConflicts_lengths (existing : List Contact) :
    ∀ news : List Contact,
      (contactConflicts existing news).1.length = (contactConflicts existing news).2.length ∧
        (contactConflicts existing news).1.length ≤ news.length
  | [] => ⟨rfl, Nat.le_refl 0⟩
  | n :: rest => by
    have ih := contactConflicts_lengths existing rest
    rw [contactConflicts_cons]
    by_cases hp : normalizePhone n.phone ≠ ""
    · rw [if_pos hp]
      cases hfind : existing.find?
          (fun c => normalizePhone c.phone == normalizePhone n.phone) with
      | none => exact ⟨ih.1, Nat.le_succ_of_le ih.2⟩
      | some ex =>
        refine ⟨by simpa using ih.1, ?_⟩
        simpa using Nat.succ_le_succ ih.2
    · rw [if_neg hp]
      exact ⟨ih.1, Nat.le_succ_of_le ih.2⟩

/-- C2: the Duplicate Detector flags a new contact if and only if its
phone number, stripped of non-digits, is non-empty and equals the stripped
phone of some committed contact; an empty stripped phone is never flagged;
at most one collision — the first matching committed contact — is recorded
per new contact. -/
theorem contact_duplicate_detection (existing news : List Contact) (n : Contact) :
    (normalizePhone n.phone = "" → contactConflicts existing [n] = ([], [])) ∧
    ((contactConflicts existing [n]).1 = [n] ↔
      normalizePhone n.phone ≠ "" ∧
        ∃ c ∈ existing, normalizePhone c.phone = normalizePhone n.phone) ∧
    ((contactConflicts existing [n]).1 ≠ [n] → contactConflicts existing [n] = ([], [])) ∧
    (∀ c, normalizePhone n.phone ≠ "" →
        existing.find? (fun c => normalizePhone c.phone == normalizePhone n.phone) = some c →
        contactConflicts existing [n] = ([n], [c.id])) ∧
    (contactConflicts existing news).1.length = (contactConflicts existing news).2.length ∧
    (contactConflicts existing news).1.length ≤ news.length := by
  refine ⟨?_, ?_, ?_, ?_, (contactConflicts_lengths existing news).1,
    (contactConflicts_lengths existing news).2⟩
  · intro hp
    rw [contactConflicts_singleton]
    simp [hp]
  · rw [contactConflicts_singleton]
    by_cases hp : normalizePhone n.phone = ""
    · simp [hp]
    · rw [if_pos hp]
      cases hfind : existing.find?
          (fun c => normalizePhone c.phone == normalizePhone n.phone) with
      | none =>
        constructor
        · intro habs
          exact absurd habs (by simp)
        · rintro ⟨_, c, hc, hceq⟩
          exfalso
          have hsome : (existing.find?
              (fun c => normalizePhone c.phone == normalizePhone n.phone)).isSome := by
            rw [List.find?_isSome]
            exact ⟨c, hc, by simpa using hceq⟩
          rw [hfind] at hsome
          simp at hsome
      | some ex =>
        constructor
        · intro _
          refine ⟨hp, ex, List.mem_of_find?_eq_some hfind, ?_⟩
          simpa using List.find?_some hfind
        · intro _
          rfl
  · rw [contactConflicts_singleton]
    by_cases hp : normalizePhone n.phone = ""
    · simp [hp]
    · rw [if_pos hp]
      cases hfind : existing.find?
          (fun c => normalizePhone c.phone == normalizePhone n.phone) with
      | none => simp
      | some ex => simp
  · intro c hp hfind
    rw [contactConflicts_singleton, if_pos hp, hfind]

/-- Closed instance of `contact_duplicate_detection`: Scenario 1's collision —
"010-1234-5678" and "01012345678" normalize equal, so the detector records
the new contact against the existing one's identifier. -/
theorem contact_duplicate_detection_witness :
    contactConflicts [sampleKim] [sampleKimJ] = ([sampleKimJ], ["k0"]) := by
  have h := (contact_duplicate_detection [sampleKim] [sampleKimJ] sampleKimJ).2.2.2.1
  have hres := h sampleKim (by decide) (by decide)
  rw [hres]
  decide

/-- One step of the expense pass, written out. -/
theorem expenseConflicts_singleton (existing : List Expense) (n : Expense) :
    expenseConflicts existing [n] =
      (match existing.find? (fun e =>
          normKey e.item == normKey n.item && e.date == n.date &&
          e.amount == n.amount && e.type == n.type) with
      | some ex => ([n], [ex.id])
      | none => ([], [])) := rfl

/-- C3: the Duplicate Detector flags a new expense if and only if some
committed expense matches it simultaneously on date, amount, type, and
trimmed-lowercased item label; if any of the four fields differs from every
committed expense, nothing is flagged. -/
theorem expense_duplicate_detection (existing : List Expense) (n : Expense) :
    ((expenseConflicts existing [n]).1 = [n] ↔
      ∃ e ∈ existing, normKey e.item = normKey n.item ∧
        e.date = n.date ∧ e.amount = n.amount ∧ e.type = n.type) ∧
    ((expenseConflicts existing [n]).1 ≠ [n] → expenseConflicts existing [n] = ([], [])) := by
  constructor
  · rw [expenseConflicts_singleton]
    cases hfind : existing.find? (fun e =>
        normKey e.item == normKey n.item && e.date == n.date &&
        e.amount == n.amount && e.type == n.type) with
    | none =>
      constructor
      · intro habs
        exact absurd habs (by simp)
      · rintro ⟨e, he, h1, h2, h3, h4⟩
        exfalso
        have hsome : (existing.find? (fun e =>
            normKey e.item == normKey n.item && e.date == n.date &&
            e.amount == n.amount && e.type == n.type)).isSome := by
          rw [List.find?_isSome]
          refine ⟨e, he, ?_⟩
          simp [h1, h2, h3, h4]
        rw [hfind] at hsome
        simp at hsome
    | some ex =>
      constructor
      · intro _
        refine ⟨ex, List.mem_of_find?_eq_some hfind, ?_⟩
        have hp := List.find?_some hfind
        simp only [Bool.and_eq_true, beq_iff_eq] at hp
        exact ⟨hp.1.1.1, hp.1.1.2, hp.1.2, hp.2⟩
      · intro _
        rfl
  · rw [expenseConflicts_singleton]
    cases hfind : existing.find? (fun e =>
        normKey e.item == normKey n.item && e.date == n.date &&
        e.amount == n.amount && e.type == n.type) with
    | none => simp
    | some ex => simp

/-- Closed instance of `expense_duplicate_detection`: "Coffee" and " coffee "
agree after trim-and-lowercase, and date/amount/type agree, so the new
expense is flagged. -/
theorem expense_duplicate_detection_witness :
    (expenseConflicts [sampleExpenseOld] [sampleExpenseNew]).1 = [sampleExpenseNew] := by
  apply (expense_duplicate_detection [sampleExpenseOld] sampleExpenseNew).1.mpr
  exact ⟨sampleExpenseOld, by decide, by decide, by decide, by decide, rfl⟩

/-- The comparator accepts `a ≤ b` exactly when the date is strictly earlier,
or the dates agree and the (missing-first) time key is no later. -/
theorem scheduleLE_iff (a b : ScheduleItem) :
    scheduleLE a b = true ↔
      a.date < b.date ∨ (a.date = b.date ∧ a.time.getD "" ≤ b.time.getD "") := by
  simp [scheduleLE]

/-- The schedule comparator is transitive. -/
theorem scheduleLE_trans (a b c : ScheduleItem)
    (h1 : scheduleLE a b = true) (h2 : scheduleLE b c = true) : scheduleLE a c = true := by
  rw [scheduleLE_iff] at h1 h2 ⊢
  rcases h1 with h1 | ⟨h1e, h1t⟩
  · rcases h2 with h2 | ⟨h2e, h2t⟩
    · exact Or.inl (lt_trans h1 h2)
    · exact Or.inl (h2e ▸ h1)
  · rcases h2 with h2 | ⟨h2e, h2t⟩
    · exact Or.inl (by rw [h1e]; exact h2)
    · exact Or.inr ⟨h1e.trans h2e, le_trans h1t h2t⟩

/-- The schedule comparator is total. -/
theorem scheduleLE_total (a b : ScheduleItem) :
    (scheduleLE a b || scheduleLE b a) = true := by
  rw [Bool.or_eq_true, scheduleLE_iff, scheduleLE_iff]
  rcases lt_trichotomy a.date b.date with h | h | h
  · exact Or.inl (Or.inl h)
  · rcases le_total (a.time.getD "") (b.time.getD "") with ht | ht
    · exact Or.inl (Or.inr ⟨h, ht⟩)
    · exact Or.inr (Or.inr ⟨h.symm, ht⟩)
  · exact Or.inr (Or.inl h)

/-- C6: an extraction result with no collisions in any category commits
immediately with no user interaction — new contacts, expenses and diary
entries are appended, the schedule is re-sorted into date-ascending order
with the (missing-first) time of day as secondary key while keeping exactly
the old plus new items, and the new HistoryItem lands at the head (index 0)
of the history log; the ConflictSession slot is untouched. -/
theorem no_conflict_immediate_commit (st : AppState) (cr : CategorizedData)
    (input : InputLog) (hid ts : String)
    (hc : (contactConflicts st.contacts cr.contacts).1 = [])
    (hs : (scheduleConflicts st.schedule cr.schedule).1 = [])
    (he : (expenseConflicts st.expenses cr.expenses).1 = []) :
    (addDataToState st cr input hid ts).history =
      ({ id := hid, timestamp := ts, input := input, output := cr } : HistoryItem)
        :: st.history ∧
    (addDataToState st cr input hid ts).contacts = st.contacts ++ cr.contacts ∧
    (addDataToState st cr input hid ts).expenses = st.expenses ++ cr.expenses ∧
    (addDataToState st cr input hid ts).diary = st.diary ++ cr.diary ∧
    (addDataToState st cr input hid ts).schedule.Perm (st.schedule ++ cr.schedule) ∧
    (addDataToState st cr input hid ts).schedule.Pairwise
      (fun a b => a.date < b.date ∨ (a.date = b.date ∧ a.time.getD "" ≤ b.time.getD "")) ∧
    (addDataToState st cr input hid ts).conflictData = st.conflictData := by
  have hcond : ¬(0 < (contactConflicts st.contacts cr.contacts).1.length ∨
      0 < (scheduleConflicts st.schedule cr.schedule).1.length ∨
      0 < (expenseConflicts st.expenses cr.expenses).1.length) := by
    simp [hc, hs, he]
  simp only [addDataToState]
  rw [if_neg hcond]
  refine ⟨rfl, rfl, rfl, rfl, List.mergeSort_perm _ _, ?_, rfl⟩
  exact (List.sorted_mergeSort scheduleLE_trans scheduleLE_total
    (st.schedule ++ cr.schedule)).imp (fun hab => (scheduleLE_iff _ _).mp hab)

/-- Closed instance of `no_conflict_immediate_commit` on a state with empty
collections: the HistoryItem is prepended and the ConflictSession slot stays
empty. -/
theorem no_conflict_immediate_commit_witness :
    (addDataToState sampleStatePending sampleResult sampleHistoryItem.input "h9" "t9").history =
      ({ id := "h9", timestamp := "t9", input := sampleHistoryItem.input,
         output := sampleResult } : HistoryItem) :: sampleStatePending.history ∧
    (addDataToState sampleStatePending sampleResult sampleHistoryItem.input "h9" "t9").conflictData
      = sampleStatePending.conflictData := by
  have h := no_conflict_immediate_commit sampleStatePending sampleResult
    sampleHistoryItem.input "h9" "t9" rfl rfl rfl
  exact ⟨h.1, h.2.2.2.2.2.2⟩

/-- `mapWithIds` preserves length: every record receives an identifier. -/
theorem mapWithIds_length {α β : Type} (g : Nat → String) (mk : String → α → β) :
    ∀ (k : Nat) (l : List α), (mapWithIds g mk k l).length = l.length
  | _, [] => rfl
  | k, a :: rest => by
    simp [mapWithIds, mapWithIds_length g mk (k + 1) rest]

/-- Projecting the assigned field out of `mapWithIds` yields exactly the
identifiers drawn from the supply at consecutive call positions. -/
theorem mapWithIds_map {α β : Type} (g : Nat → String) (mk : String → α → β)
    (f : β → String) (hf : ∀ s a, f (mk s a) = s) :
    ∀ (k : Nat) (l : List α),
      (mapWithIds g mk k l).map f = (List.range l.length).map (fun i => g (k + i))
  | _, [] => rfl
  | k, a :: rest => by
    have ih := mapWithIds_map g mk f hf (k + 1) rest
    simp only [mapWithIds, List.map_cons, hf, ih, List.length_cons,
      List.range_succ_eq_map, List.map_map]
    have hfun : ((fun i => g (k + i)) ∘ Nat.succ) = fun i => g (k + 1 + i) := by
      funext i
      show g (k + Nat.succ i) = g (k + 1 + i)
      congr 1
      omega
    rw [hfun]
    simp

/-- Splitting a contiguous block of identifier draws. -/
theorem range_map_add (g : Nat → String) (k a b : Nat) :
    (List.range (a + b)).map (fun i => g (k + i)) =
      (List.range a).map (fun i => g (k + i)) ++
        (List.range b).map (fun i => g (k + a + i)) := by
  rw [List.range_add, List.map_append, List.map_map]
  have hfun : ((fun i => g (k + i)) ∘ fun x => a + x) = fun i => g (k + a + i) := by
    funext i
    show g (k + (a + i)) = g (k + a + i)
    congr 1
    omega
  rw [hfun]

/-- The identifiers of `addIdsToData` are exactly the `countOf d` consecutive
draws of the supply starting at call position `k`. -/
theorem addIdsToData_ids (g : Nat → String) (k : Nat) (d : ProcessedData) :
    idsOf (addIdsToData g k d) = (List.range (countOf d)).map (fun i => g (k + i)) := by
  unfold idsOf addIdsToData countOf
  simp only
  rw [mapWithIds_map g
      (fun i c => ({ id := i, name := c.name, phone := c.phone, email := c.email,
                     group := defaultGroup c.group } : Contact))
      (fun c => c.id) (fun _ _ => rfl) k d.contacts,
    mapWithIds_map g
      (fun i s => ({ id := i, title := s.title, date := s.date, time := s.time,
                     location := s.location } : ScheduleItem))
      (fun s => s.id) (fun _ _ => rfl) _ d.schedule,
    mapWithIds_map g
      (fun i e => ({ id := i, date := e.date, item := e.item, amount := e.amount,
                     type := e.type, category := e.category, imageUrl := none } : Expense))
      (fun e => e.id) (fun _ _ => rfl) _ d.expenses,
    mapWithIds_map g
      (fun i x => ({ id := i, date := x.date, entry := x.entry,
                     group := defaultGroup x.group } : DiaryEntry))
      (fun x => x.id) (fun _ _ => rfl) _ d.diary,
    range_map_add g k (d.contacts.length + d.schedule.length + d.expenses.length)
      d.diary.length,
    range_map_add g k (d.contacts.length + d.schedule.length) d.expenses.length,
    range_map_add g k d.contacts.length d.schedule.length]
  simp [Nat.add_assoc]

/-- C9: identifiers are assigned exactly once, by `addIdsToData` at commit
handling time and never during extraction (the extraction result type
`ProcessedData` carries no identifier fields at all): the identifiers on the
categorized result are exactly the fresh consecutive draws of the supply,
they are pairwise distinct whenever the supply is injective, and every record
receives one. -/
theorem ids_assigned_once_at_commit (g : Nat → String) (hg : Function.Injective g)
    (k : Nat) (d : ProcessedData) :
    idsOf (addIdsToData g k d) = (List.range (countOf d)).map (fun i => g (k + i)) ∧
    (idsOf (addIdsToData g k d)).Nodup ∧
    (addIdsToData g k d).contacts.length = d.contacts.length ∧
    (addIdsToData g k d).schedule.length = d.schedule.length ∧
    (addIdsToData g k d).expenses.length = d.expenses.length ∧
    (addIdsToData g k d).diary.length = d.diary.length := by
  refine ⟨addIdsToData_ids g k d, ?_, ?_, ?_, ?_, ?_⟩
  · rw [addIdsToData_ids g k d]
    refine List.Nodup.map ?_ (List.nodup_range _)
    intro i j hij
    exact Nat.add_left_cancel (hg hij)
  · simp [addIdsToData, mapWithIds_length]
  · simp [addIdsToData, mapWithIds_length]
  · simp [addIdsToData, mapWithIds_length]
  · simp [addIdsToData, mapWithIds_length]

/-- The length-encoding identifier supply is injective. -/
theorem gRep_injective : Function.Injective gRep := by
  intro a b h
  have hlen := congrArg String.length h
  simpa [gRep, String.length] using hlen

/-- Closed instance of `ids_assigned_once_at_commit` on a concrete extraction
payload and the injective supply `gRep`. -/
theorem ids_assigned_once_at_commit_witness :
    (idsOf (addIdsToData gRep 0 sampleProcessed)).Nodup := by
  exact (ids_assigned_once_at_commit gRep gRep_injective 0 sampleProcessed).2.1

/-- C7 counterexample: the gateway-error path does NOT clear an outstanding
ConflictSession.  On a state whose `conflictData` slot is occupied, handling
a failed gateway call leaves the slot occupied, contrary to the claim that
"both the ConflictSession and the PendingClarification are cleared". -/
theorem gateway_error_conflict_counterexample :
    (handleSendMessage sampleStateConflict "hi" none (GatewayOutcome.failure "network")
        gSample "t0").conflictData ≠ none := by
  decide

/-- C7 (amended): every gateway error is surfaced as a chat-visible model
message and as the generic error indicator, no partial commit to any
collection occurs, and the PendingClarification is cleared; the
ConflictSession slot is left unchanged (not cleared) by the error path. -/
theorem gateway_error_semantics (st : AppState) (text : String) (image : Option InputImage)
    (msg : String) (g : Nat → String) (ts : String) (hs : validSession st) :
    (handleSendMessage st text image (GatewayOutcome.failure msg) g ts).contacts
        = st.contacts ∧
    (handleSendMessage st text image (GatewayOutcome.failure msg) g ts).schedule
        = st.schedule ∧
    (handleSendMessage st text image (GatewayOutcome.failure msg) g ts).expenses
        = st.expenses ∧
    (handleSendMessage st text image (GatewayOutcome.failure msg) g ts).diary = st.diary ∧
    (handleSendMessage st text image (GatewayOutcome.failure msg) g ts).history
        = st.history ∧
    (handleSendMessage st text image (GatewayOutcome.failure msg) g ts).error = some msg ∧
    (handleSendMessage st text image
        (GatewayOutcome.failure msg) g ts).pendingClarificationInput = none ∧
    (handleSendMessage st text image (GatewayOutcome.failure msg) g ts).conflictData
        = st.conflictData ∧
    ∃ s ∈ (handleSendMessage st text image (GatewayOutcome.failure msg) g ts).chatSessions,
      ∃ m ∈ s.messages, m.role = Role.model ∧ m.text = "오류가 발생했습니다: " ++ msg := by
  have hmsg : ∃ s ∈ (handleSendMessage st text image
      (GatewayOutcome.failure msg) g ts).chatSessions,
      ∃ m ∈ s.messages, m.role = Role.model ∧ m.text = "오류가 발생했습니다: " ++ msg := by
    by_cases hnew : st.activeChatSessionId = "new"
    · simp only [handleSendMessage, hnew, if_true, appendToSession]
      refine ⟨_, List.mem_map_of_mem _ (List.mem_cons_self _ _), ?_⟩
      simp
    · simp only [handleSendMessage, hnew, if_false, appendToSession]
      obtain ⟨s, hsmem, hsid⟩ := hs.resolve_left hnew
      refine ⟨_, List.mem_map_of_mem _ (List.mem_map_of_mem _ hsmem), ?_⟩
      simp only [hsid, if_pos]
      refine ⟨{ id := g 1, role := Role.model, text := "오류가 발생했습니다: " ++ msg,
                imageUrl := none, clarificationOptions := none }, ?_, rfl, rfl⟩
      simp
  refine ⟨?_, ?_, ?_, ?_, ?_, ?_, ?_, ?_, hmsg⟩ <;>
    (by_cases hnew : st.activeChatSessionId = "new" <;>
      simp [handleSendMessage, hnew, appendToSession])

/-- Closed instance of `gateway_error_semantics` on the quiescent sample
state. -/
theorem gateway_error_semantics_witness :
    (handleSendMessage sampleStateIdle "hi" none (GatewayOutcome.failure "network")
        gSample "t0").error = some "network" ∧
    (handleSendMessage sampleStateIdle "hi" none (GatewayOutcome.failure "network")
        gSample "t0").pendingClarificationInput = none := by
  have h := gateway_error_semantics sampleStateIdle "hi" none "network" gSample "t0"
    (Or.inl rfl)
  exact ⟨h.2.2.2.2.2.1, h.2.2.2.2.2.2.1⟩

/-- C10: a non-clarifying gateway result whose four extraction arrays are all
empty leaves the PendingClarification slot exactly as it was; the slot is
cleared by starting a new chat or switching sessions. -/
theorem empty_result_preserves_pending (st : AppState) (text : String)
    (image : Option InputImage) (g : Nat → String) (ts : String) (r : GatewayResult)
    (hs : validSession st) (h1 : r.clarificationNeeded = false)
    (h2 : hasExtractedData r.dataExtraction = false) :
    (handleSendMessage st text image (GatewayOutcome.ok r) g ts).pendingClarificationInput
        = st.pendingClarificationInput ∧
    (handleNewChat st).pendingClarificationInput = none ∧
    (∀ sid, (handleSelectChat st sid).pendingClarificationInput = none) := by
  refine ⟨?_, rfl, fun sid => rfl⟩
  by_cases hnew : st.activeChatSessionId = "new" <;>
    simp [handleSendMessage, hnew, h1, h2]

/-- Closed instance of `empty_result_preserves_pending`: the stored original
input survives an empty result untouched. -/
theorem empty_result_preserves_pending_witness :
    (handleSendMessage sampleStatePending "ok" none (GatewayOutcome.ok sampleEmptyResult)
        gSample "t0").pendingClarificationInput = some samplePending := by
  have h := empty_result_preserves_pending sampleStatePending "ok" none gSample "t0"
    sampleEmptyResult (Or.inl rfl) rfl rfl
  exact h.1.trans rfl

/-- The data-committing tail with a stored PendingClarification carrying an
image: the PendingClarification is cleared, any HistoryItem created by the
round (committed at once or parked in the ConflictSession) carries the stored
input `p`, and every expense of its output carries `p`'s image reference. -/
theorem commitExtractedRound_spec (st2 : AppState) (p userInputLog : InputLog)
    (imageUrl : Option String) (ex : ProcessedData) (g : Nat → String) (k2 : Nat)
    (ts : String) (u : String) (hpu : p.imageUrl = some u) (hu : u ≠ "") :
    (commitExtractedRound st2 (some p) userInputLog imageUrl ex g k2
        ts).pendingClarificationInput = none ∧
    (∀ h ∈ (commitExtractedRound st2 (some p) userInputLog imageUrl ex g k2 ts).history,
      h ∈ st2.history ∨ (h.input = p ∧ ∀ e ∈ h.output.expenses, e.imageUrl = some u)) ∧
    (∀ cd, (commitExtractedRound st2 (some p) userInputLog imageUrl ex g k2
        ts).conflictData = some cd →
      st2.conflictData = some cd ∨
        (cd.newHistoryItem.input = p ∧
          ∀ e ∈ cd.categorizedResult.expenses, e.imageUrl = some u)) := by
  have hj : jsTruthy (some u) = true := by simp [jsTruthy, hu]
  have htru : jsTruthy (jsOrOpt p.imageUrl imageUrl) = true := by
    simp [jsOrOpt, jsTruthy, hpu, hu]
  have hval : jsOrOpt p.imageUrl imageUrl = some u := by
    simp [jsOrOpt, jsTruthy, hpu, hu]
  simp only [commitExtractedRound, Option.some_bind, Option.getD_some, htru, hval, hj,
    Bool.true_and, addDataToState]
  by_cases hlen : 0 < (addIdsToData g k2 ex).expenses.length
  · have hc : (decide (0 < (addIdsToData g k2 ex).expenses.length)) = true := by
      simp [hlen]
    simp only [hc, if_true]
    refine ⟨by simp, ?_, ?_⟩
    · intro h hh
      split at hh
      · exact Or.inl hh
      · simp only [List.mem_cons] at hh
        rcases hh with hh | hh
        · refine Or.inr ⟨by rw [hh], ?_⟩
          intro e he
          rw [hh] at he
          simp only [List.mem_map] at he
          obtain ⟨e0, -, he0⟩ := he
          rw [← he0]
        · exact Or.inl hh
    · intro cd hcd
      split at hcd
      · simp only [Option.some.injEq] at hcd
        refine Or.inr ?_
        rw [← hcd]
        refine ⟨rfl, ?_⟩
        intro e he
        simp only [List.mem_map] at he
        obtain ⟨e0, -, he0⟩ := he
        rw [← he0]
      · exact Or.inl hcd
  · have hc : (decide (0 < (addIdsToData g k2 ex).expenses.length)) = false := by
      simp [hlen]
    have hnil : (addIdsToData g k2 ex).expenses = [] :=
      List.eq_nil_of_length_eq_zero (Nat.eq_zero_of_not_pos hlen)
    simp only [hc, Bool.false_eq_true, if_false]
    refine ⟨by simp, ?_, ?_⟩
    · intro h hh
      split at hh
      · exact Or.inl hh
      · simp only [List.mem_cons] at hh
        rcases hh with hh | hh
        · refine Or.inr ⟨by rw [hh], ?_⟩
          intro e he
          rw [hh] at he
          simp only [hnil] at he
          simp at he
        · exact Or.inl hh
    · intro cd hcd
      split at hcd
      · simp only [Option.some.injEq] at hcd
        refine Or.inr ?_
        rw [← hcd]
        refine ⟨rfl, ?_⟩
        intro e he
        simp only [hnil] at he
        simp at he
      · exact Or.inl hcd

/-- C8: across a clarification dialogue, (i) on a clarifying result the
current input is stored as the PendingClarification only when none is stored
yet — the first pending input wins — and (ii) on a later data-bearing result
the HistoryItem created by that round (whether committed at once or parked in
a ConflictSession) carries the stored original input, not the reply, every
extracted expense record carries the PendingClarification's image reference,
and the PendingClarification is cleared. -/
theorem clarification_protocol (st : AppState) (text : String) (image : Option InputImage)
    (g : Nat → String) (ts : String) (r : GatewayResult) (hs : validSession st) :
    (r.clarificationNeeded = true → st.pendingClarificationInput = none →
      (handleSendMessage st text image (GatewayOutcome.ok r) g ts).pendingClarificationInput
        = some (mkInputLog text image)) ∧
    (r.clarificationNeeded = true → ∀ p0, st.pendingClarificationInput = some p0 →
      (handleSendMessage st text image (GatewayOutcome.ok r) g ts).pendingClarificationInput
        = some p0) ∧
    (∀ p u, st.pendingClarificationInput = some p → r.clarificationNeeded = false →
      hasExtractedData r.dataExtraction = true → p.imageUrl = some u → u ≠ "" →
      (handleSendMessage st text image (GatewayOutcome.ok r) g ts).pendingClarificationInput
          = none ∧
      (∀ h ∈ (handleSendMessage st text image (GatewayOutcome.ok r) g ts).history,
        h ∈ st.history ∨ (h.input = p ∧ ∀ e ∈ h.output.expenses, e.imageUrl = some u)) ∧
      (∀ cd, (handleSendMessage st text image (GatewayOutcome.ok r) g ts).conflictData
          = some cd →
        st.conflictData = some cd ∨
          (cd.newHistoryItem.input = p ∧
            ∀ e ∈ cd.categorizedResult.expenses, e.imageUrl = some u))) := by
  refine ⟨?_, ?_, ?_⟩
  · intro hclar hnone
    by_cases hnew : st.activeChatSessionId = "new" <;>
      simp [handleSendMessage, hnew, hclar, hnone]
  · intro hclar p0 hsome
    by_cases hnew : st.activeChatSessionId = "new" <;>
      simp [handleSendMessage, hnew, hclar, hsome]
  · intro p u hp hclar hdata hpu hu
    by_cases hnew : st.activeChatSessionId = "new" <;>
      · simp only [handleSendMessage, hnew, hclar, hdata, hp, Bool.false_eq_true,
          eq_self_iff_true, if_true, if_false]
        exact commitExtractedRound_spec _ p _ _ _ g _ ts u hpu hu
/-- Closed instance of `clarification_protocol`: after a data-bearing reply,
the stored PendingClarification is cleared. -/
theorem clarification_protocol_witness :
    (handleSendMessage sampleStatePending "Schedule" none
        (GatewayOutcome.ok sampleDataResult) gSample "t0").pendingClarificationInput
      = none := by
  exact ((clarification_protocol sampleStatePending "Schedule" none gSample "t0"
    sampleDataResult (Or.inl rfl)).2.2 samplePending "data:image" rfl rfl rfl rfl
    (by decide)).1

end LifeOS
